import Mathlib

/-!
Shallow embedding of the videospeed media-element discovery and
controller-lifecycle subsystem, translated from
`src/core/video-controller.js` and the media-element observer source file,
together with theorems settling the frozen claims about it.

JS numbers are modelled as rationals (`Rat`), JS strings as `String`,
JS truthiness of a number as `≠ 0` and of a string as `≠ ""`.
Fallible DOM operations return `Except JsError`.
-/

namespace VSC

/-! ## JS primitives -/

/-- JS `x || d` for an optional number `x` (`undefined`/`0` are falsy). -/
def jsOrNum (x : Option Rat) (d : Rat) : Rat :=
  match x with
  | some v => if v = 0 then d else v
  | none => d

/-- JS `a || b` for strings (empty string is falsy). -/
def jsOrStr (a b : String) : String :=
  if a = "" then b else a

/-- JS truthiness of an optional number. -/
def jsTruthyNum (x : Option Rat) : Bool :=
  match x with
  | some v => v != 0
  | none => false

/-- JS `Number.prototype.toFixed(1)` on a nonnegative rational:
round to the nearest tenth (half up) and render with one decimal digit.
The rounded value `⌊q * 10 + 1/2⌋ = ⌊(20 * num + den) / (2 * den)⌋` is
computed on `num`/`den` directly so that it reduces inside the kernel. -/
def toFixed1 (q : Rat) : String :=
  let n : Nat := (20 * q.num.toNat + q.den) / (2 * q.den)
  toString (n / 10) ++ "." ++ toString (n % 10)

/-! ## Config (external collaborator, as consumed by the controller) -/

/-- Per-source stored speed table: `settings.speeds`, keyed by normalized
URL, each entry carrying a `.speed` number. -/
def lookupSpeed (speeds : List (String × Rat)) (url : String) : Option Rat :=
  (speeds.find? (fun p => p.1 = url)).map (fun p => p.2)

/-- The settings fields read by the controller (`config.settings`). -/
structure Settings where
  speeds : List (String × Rat)
  rememberSpeed : Bool
  lastSpeed : Option Rat
  forceLastSavedSpeed : Bool
  startHidden : Bool
  audioBoolean : Bool
  deriving DecidableEq, Repr

/-! ## Video element state read by the controller -/

/-- The fields of an HTML media element that the controller reads.
Identity of elements is modelled by `id`. -/
structure VideoElem where
  id : Nat
  src : String
  currentSrc : String
  playbackRate : Rat
  deriving DecidableEq, Repr

/-! ## initializeSpeed (video-controller.js lines 53-93) -/

/-- How the resolved rate was applied: a synthetic `ratechange`
`CustomEvent` whose `detail.speed` is the formatted string, or a direct
`playbackRate` assignment. -/
inductive SpeedApplication where
  | dispatchRateChange (speedStr : String)
  | assignPlaybackRate (rate : Rat)
  deriving DecidableEq, Repr

/-- Result of `initializeSpeed`: the resolved target rate, the value the
`reset` key binding was set to, and how the rate was applied. -/
structure InitSpeedResult where
  targetSpeed : Rat
  resetBinding : Rat
  application : SpeedApplication
  deriving DecidableEq, Repr

/-- Embedding of `VideoController.initializeSpeed`.  `getBaseURL` (from
`utils/url.js`, the URL-normalization function) is passed as a parameter;
`keyFast` is `config.getKeyBinding('fast')`. -/
def initializeSpeed (getBaseURL : String → String) (cfg : Settings)
    (keyFast : Rat) (v : VideoElem) : InitSpeedResult :=
  let videoSrc := jsOrStr v.currentSrc v.src
  let storedVideoSpeed := jsOrNum (lookupSpeed cfg.speeds (getBaseURL videoSrc)) 1
  let tr : Rat × Rat :=
    if cfg.rememberSpeed then
      let t :=
        if storedVideoSpeed ≠ 0 then storedVideoSpeed
        else if jsTruthyNum cfg.lastSpeed then cfg.lastSpeed.getD 1
        else 1
      (t, t)
    else
      (1, keyFast)
  let targetSpeed := tr.1
  let application :=
    if cfg.forceLastSavedSpeed ∧ targetSpeed ≠ 1 then
      SpeedApplication.dispatchRateChange (toFixed1 targetSpeed)
    else
      SpeedApplication.assignPlaybackRate targetSpeed
  { targetSpeed := targetSpeed, resetBinding := tr.2, application := application }

/-! ## Controller overlay classes (video-controller.js lines 100-151) -/

/-- `classList.add`: appends the class unless already present. -/
def classListAdd (cl : List String) (c : String) : List String :=
  if c ∈ cl then cl else cl ++ [c]

/-- `classList.remove`: removes every occurrence of the class. -/
def classListRemove (cl : List String) (c : String) : List String :=
  cl.filter (fun x => x ≠ c)

/-- The classes `initializeControls` puts on the wrapper: `vsc-controller`,
then `vsc-nosource` when `!this.video.currentSrc`, then `vsc-hidden` or
`vcs-show` depending on `startHidden`. -/
def initialControlClasses (cfg : Settings) (v : VideoElem) : List String :=
  let cl := ["vsc-controller"]
  let cl := if v.currentSrc = "" then classListAdd cl "vsc-nosource" else cl
  if cfg.startHidden then classListAdd cl "vsc-hidden" else classListAdd cl "vcs-show"

/-! ## Play/seek handler (video-controller.js lines 194-221) -/

/-- Effects of one `mediaEventAction` invocation: the rate passed to
`actionHandler.setSpeed`, and the value the `reset` key binding was set to
(when it was set at all). -/
structure MediaEventResult where
  setSpeedArg : Rat
  resetBindingSet : Option Rat
  deriving DecidableEq, Repr

/-- Embedding of the `mediaEventAction` closure installed by
`setupEventHandlers` for `play` and `seeked` events.  The handler reads
only `event.target.currentSrc`. -/
def mediaEventAction (getBaseURL : String → String) (cfg : Settings)
    (keyFast : Rat) (targetCurrentSrc : String) : MediaEventResult :=
  let url := getBaseURL targetCurrentSrc
  let storedSpeed := jsOrNum (lookupSpeed cfg.speeds url) 1
  if ¬cfg.rememberSpeed then
    let storedSpeed := if storedSpeed = 0 then 1 else storedSpeed
    { setSpeedArg := storedSpeed, resetBindingSet := some keyFast }
  else
    { setSpeedArg := storedSpeed, resetBindingSet := none }

/-! ## insertIntoDOM (video-controller.js lines 159-188)

In the source the wrapper is first appended to a detached
`DocumentFragment`; only the final `insertBefore` call touches the document
tree, and when its target is `null` it throws a `TypeError` instead.  The
switch runs on the adapter-supplied `insertionMethod` string with
`firstChild` as the default branch. -/

/-- A JS exception escaping an operation. -/
inductive JsError where
  | typeError (msg : String)
  deriving DecidableEq, Repr

/-- The DOM fields of the adapter-supplied insertion anchor that
`insertIntoDOM` reads: `parentElement`, `nextSibling`, `firstChild`. -/
structure AnchorNode where
  id : Nat
  parentId : Option Nat
  nextSiblingId : Option Nat
  firstChildId : Option Nat
  deriving DecidableEq, Repr

/-- Site-adapter positioning directive
(`siteHandlerManager.getControllerPosition` result).  A stale or missing
insertion point is `none`. -/
structure PositioningInfo where
  insertionMethod : String
  insertionPoint : Option AnchorNode
  deriving DecidableEq, Repr

/-- The single document-tree mutation a successful insertion performs. -/
inductive InsertEffect where
  | insertedBefore (parentId anchorId wrapperId : Nat)
  | insertedAfter (parentId anchorId wrapperId : Nat)
  | insertedAsFirstChild (anchorId wrapperId : Nat)
  deriving DecidableEq, Repr

/-- Embedding of `VideoController.insertIntoDOM`.  Accessing a property of
a `null` insertion point, or calling `insertBefore` on a `null` parent,
raises a `TypeError` exactly as in JS; there is no catch in the source. -/
def insertIntoDOM (pos : PositioningInfo) (wrapperId : Nat) :
    Except JsError InsertEffect :=
  if pos.insertionMethod = "beforeParent" then
    match pos.insertionPoint with
    | none => .error (.typeError "null insertionPoint: reading parentElement")
    | some a =>
      match a.parentId with
      | none => .error (.typeError "null parentElement: calling insertBefore")
      | some p => .ok (.insertedBefore p a.id wrapperId)
  else if pos.insertionMethod = "afterParent" then
    match pos.insertionPoint with
    | none => .error (.typeError "null insertionPoint: reading parentElement")
    | some a =>
      match a.parentId with
      | none => .error (.typeError "null parentElement: calling insertBefore")
      | some p => .ok (.insertedAfter p a.id wrapperId)
  else
    match pos.insertionPoint with
    | none => .error (.typeError "null insertionPoint: calling insertBefore")
    | some a => .ok (.insertedAsFirstChild a.id wrapperId)

/-! ## Controller lifecycle state -/

/-- The per-element controller state built by the `VideoController`
constructor (the `vsc` back-reference target). -/
structure ControllerState where
  videoId : Nat
  divId : Nat
  divClasses : List String
  speedText : String
  deriving DecidableEq, Repr

/-- The world the lifecycle mutates: the `vsc` back-references, the
config's tracked-elements registry, the wrapper divs currently in the
document, the registered `play`/`seeked` listeners, the connected
per-element mutation observers, the `reset` key binding, and the log of
dispatched synthetic `ratechange` events and of direct `playbackRate`
assignments.  `nextId` supplies fresh DOM ids for created wrappers. -/
structure World where
  nextId : Nat
  attached : List (Nat × ControllerState)
  mediaElements : List Nat
  domDivs : List Nat
  playListeners : List (Nat × Nat)
  seekListeners : List (Nat × Nat)
  activeObservers : List Nat
  resetBinding : Rat
  dispatchedEvents : List (Nat × String)
  assignedRates : List (Nat × Rat)
  deriving DecidableEq, Repr

/-- Embedding of the `VideoController` constructor (`create`): returns the
existing state unchanged when the element already carries one; otherwise
registers the element, resolves and applies the speed, builds and inserts
the overlay, subscribes the event handlers and the source observer, and
attaches the back-reference.  A `TypeError` from `insertIntoDOM`
propagates; the side effects performed before the throw persist, exactly
as in JS. -/
def create (getBaseURL : String → String) (cfg : Settings) (keyFast : Rat)
    (pos : PositioningInfo) (v : VideoElem) (w : World) :
    Except JsError ControllerState × World :=
  match w.attached.find? (fun p => p.1 = v.id) with
  | some p => (.ok p.2, w)
  | none =>
    let w1 := { w with mediaElements := w.mediaElements ++ [v.id] }
    let isr := initializeSpeed getBaseURL cfg keyFast v
    let w2 := { w1 with resetBinding := isr.resetBinding }
    let awr : World × Rat :=
      match isr.application with
      | .dispatchRateChange s =>
        ({ w2 with dispatchedEvents := w2.dispatchedEvents ++ [(v.id, s)] },
          v.playbackRate)
      | .assignPlaybackRate r =>
        ({ w2 with assignedRates := w2.assignedRates ++ [(v.id, r)] }, r)
    let w3 := awr.1
    let classes := initialControlClasses cfg v
    let divId := w3.nextId
    let w4 := { w3 with nextId := w3.nextId + 1 }
    match insertIntoDOM pos divId with
    | .error e => (.error e, w4)
    | .ok _ =>
      let w5 := { w4 with domDivs := w4.domDivs ++ [divId] }
      let w6 := { w5 with
        playListeners := w5.playListeners ++ [(v.id, divId)],
        seekListeners := w5.seekListeners ++ [(v.id, divId)] }
      let w7 := { w6 with activeObservers := w6.activeObservers ++ [divId] }
      let c : ControllerState :=
        { videoId := v.id, divId := divId, divClasses := classes,
          speedText := toFixed1 awr.2 }
      (.ok c, { w7 with attached := w7.attached ++ [(v.id, c)] })

/-! ## remove / destroy (video-controller.js lines 253-281) -/

/-- Embedding of `VideoController.remove` for an attached controller `c`:
detach the wrapper when it still has a parent, remove both event
listeners (a no-op when already removed), disconnect the observer, remove
the element from the config registry, and delete the `vsc`
back-reference.  Every underlying DOM operation is non-throwing, so the
embedding is a total function. -/
def removeController (c : ControllerState) (w : World) : World :=
  let w := if c.divId ∈ w.domDivs
    then { w with domDivs := w.domDivs.filter (fun d => d ≠ c.divId) } else w
  let w := { w with
    playListeners := w.playListeners.filter (fun p => p ≠ (c.videoId, c.divId)) }
  let w := { w with
    seekListeners := w.seekListeners.filter (fun p => p ≠ (c.videoId, c.divId)) }
  let w := { w with
    activeObservers := w.activeObservers.filter (fun d => d ≠ c.divId) }
  let w := { w with
    mediaElements := w.mediaElements.filter (fun m => m ≠ c.videoId) }
  { w with attached := w.attached.filter (fun p => p.1 ≠ c.videoId) }

/-- Modelled from the spec: the lifecycle's `destroy(handle)` entry point
(`remove` itself is in `src/core/video-controller.js`, but the
orchestrator that guards it behind the handle's attached state is not
under `src/`); per the spec it "must be a no-op, never erroring, on an
already-destroyed or never-created handle", so it runs `remove` only when
a controller is attached to the handle. -/
def destroy (videoId : Nat) (w : World) : World :=
  match w.attached.find? (fun p => p.1 = videoId) with
  | some p => removeController p.2 w
  | none => w

/-! ## Source-attribute mutation observer (video-controller.js lines 227-248) -/

/-- The fields of a `MutationRecord` the callback inspects. -/
structure MutationRecord where
  type : String
  attributeName : String
  deriving DecidableEq, Repr

/-- Embedding of the body of the observer callback for one mutation
record: for an attribute mutation of `src`/`currentSrc` it toggles the
wrapper's `vsc-nosource` class from the observed element's current `src`
and `currentSrc`; any other record is ignored. -/
def processMutation (v : VideoElem) (m : MutationRecord)
    (classes : List String) : List String :=
  if m.type = "attributes" ∧
      (m.attributeName = "src" ∨ m.attributeName = "currentSrc") then
    if v.src = "" ∧ v.currentSrc = "" then classListAdd classes "vsc-nosource"
    else classListRemove classes "vsc-nosource"
  else classes

/-- The observer callback over a delivered batch of mutation records: it
only rewrites the attached controller's wrapper classes; nothing else in
the world is touched. -/
def mutationCallback (v : VideoElem) (ms : List MutationRecord) (w : World) :
    World :=
  { w with attached := w.attached.map (fun p =>
      if p.1 = v.id then
        (p.1, { p.2 with
          divClasses := ms.foldl (fun cl m => processMutation v m cl) p.2.divClasses })
      else p) }

/-! ## Element validator (media-element observer, `isValidMediaElement`) -/

/-- The element facts `isValidMediaElement` reads: connectivity, computed
style, readiness, bounding box, and the site handler's ignore verdict for
this element. -/
structure MediaCheck where
  isConnected : Bool
  display : String
  visibility : String
  opacity : String
  readyState : Nat
  rectWidth : Rat
  rectHeight : Rat
  ignoredBySiteHandler : Bool
  deriving DecidableEq, Repr

/-- Embedding of `MediaElementObserver.isValidMediaElement`: reject when
disconnected; reject when hidden by computed style; when `readyState < 2`
skip the size check and let the site handler decide; otherwise require a
bounding box of at least 50×50 and then let the site handler decide. -/
def isValidMediaElement (m : MediaCheck) : Bool :=
  if ¬m.isConnected then false
  else if m.display = "none" ∨ m.visibility = "hidden" ∨ m.opacity = "0" then false
  else if m.readyState < 2 then
    if m.ignoredBySiteHandler then false else true
  else if m.rectWidth < 50 ∨ m.rectHeight < 50 then false
  else if m.ignoredBySiteHandler then false
  else true

/-! ## Document tree model for the scanner

A node carries its identity, its `nodeName`, its regular children and the
children of its attached shadow root (an empty forest when there is
none).  `DForest` is mutually inductive with `DNode`; the scan functions
recurse on forests with deep patterns so that they stay structural and
compute inside the kernel. -/

mutual
inductive DNode where
  | mk (id : Nat) (nodeName : String) (children : DForest) (shadow : DForest)
inductive DForest where
  | nil
  | cons (head : DNode) (tail : DForest)
end

/-- The node's identity. -/
def DNode.id : DNode → Nat
  | .mk i _ _ _ => i

/-- The node's `nodeName`. -/
def DNode.nodeName : DNode → String
  | .mk _ n _ _ => n

/-- The node's regular children. -/
def DNode.children : DNode → DForest
  | .mk _ _ cs _ => cs

/-- The node's shadow-root children. -/
def DNode.shadow : DNode → DForest
  | .mk _ _ _ sh => sh

/-- `mediaTagNodeNames` / the `'video,audio'` selector, depending on the
`audioBoolean` setting. -/
def mediaTags (audio : Bool) : List String :=
  if audio then ["VIDEO", "AUDIO"] else ["VIDEO"]

/-- The node names the traversal never descends into. -/
def ignoredNodeNames : List String := ["#text", "STYLE", "SCRIPT"]

/-- A child node the traversal descends into: an element
(`nodeType === Node.ELEMENT_NODE`, modelled as a name whose first
character is not `#` — non-element DOM nodes are the `#`-named kinds)
that is not in `ignoredNodeNames`. -/
def traversableChild (n : DNode) : Bool :=
  !(n.nodeName.data.head? == some (Char.ofNat 35)) &&
    !ignoredNodeNames.contains n.nodeName

/-- `querySelectorAll('video,audio')` over a forest: light-DOM descent
only, shadow roots are not pierced. -/
def lightMediaF (tags : List String) : DForest → List DNode
  | .nil => []
  | .cons (.mk i n cs sh) t =>
    (if n ∈ tags then [DNode.mk i n cs sh] else []) ++
      lightMediaF tags cs ++ lightMediaF tags t

/-- `document.querySelectorAll('video,audio')` on the tree rooted at the
node. -/
def lightMediaN (tags : List String) (n : DNode) : List DNode :=
  (if n.nodeName ∈ tags then [n] else []) ++ lightMediaF tags n.children

/-- All media in a forest, descending through both regular children and
shadow children, with no name-based skipping. -/
def allMediaF (tags : List String) : DForest → List DNode
  | .nil => []
  | .cons (.mk i n cs sh) t =>
    (if n ∈ tags then [DNode.mk i n cs sh] else []) ++
      allMediaF tags cs ++ allMediaF tags sh ++ allMediaF tags t

/-- All media in the tree rooted at the node. -/
def allMediaN (tags : List String) (n : DNode) : List DNode :=
  (if n.nodeName ∈ tags then [n] else []) ++
    allMediaF tags n.children ++ allMediaF tags n.shadow

/-- The media reachable from a forest only by crossing at least one
shadow boundary: everything inside a member's shadow subtree plus,
recursively, the shadow media of its regular children. -/
def shadowMediaF (tags : List String) : DForest → List DNode
  | .nil => []
  | .cons (.mk _ _ cs sh) t =>
    (shadowMediaF tags cs ++ allMediaF tags sh) ++ shadowMediaF tags t

/-- The shadow-encapsulated media of the tree rooted at the node. -/
def shadowMediaN (tags : List String) (n : DNode) : List DNode :=
  shadowMediaF tags n.children ++ allMediaF tags n.shadow

/-- Embedding of the recursion of `_traverseForShadowRootsAndMedia` over
a child forest: only traversable element children are entered; a visited
child contributes itself when it is a media tag, then its regular
children followed by its shadow children.  (The source builds one
concatenated child array, `childNodes` then shadow `childNodes`, and
filters it; processing the two halves in order yields the same list.) -/
def traverseMediaF (tags : List String) : DForest → List DNode
  | .nil => []
  | .cons (.mk i n cs sh) t =>
    (if traversableChild (.mk i n cs sh) then
      (if n ∈ tags then [DNode.mk i n cs sh] else []) ++
        traverseMediaF tags cs ++ traverseMediaF tags sh
    else []) ++ traverseMediaF tags t

/-- Embedding of `_traverseForShadowRootsAndMedia`: `traverse` is applied
to the root unconditionally, then recurses into its children and shadow
children. -/
def traverseMediaN (tags : List String) (n : DNode) : List DNode :=
  (if n.nodeName ∈ tags then [n] else []) ++
    traverseMediaF tags n.children ++ traverseMediaF tags n.shadow

/-- Every node id in a forest. -/
def allIdsF : DForest → List Nat
  | .nil => []
  | .cons (.mk i _ cs sh) t => (i :: (allIdsF cs ++ allIdsF sh)) ++ allIdsF t

/-- Every node id in the tree rooted at the node. -/
def allIdsN (n : DNode) : List Nat :=
  n.id :: (allIdsF n.children ++ allIdsF n.shadow)

/-- A forest all of whose nodes (including shadow subtrees) are
traversable element nodes. -/
def cleanF : DForest → Bool
  | .nil => true
  | .cons (.mk i n cs sh) t =>
    traversableChild (.mk i n cs sh) && cleanF cs && cleanF sh && cleanF t

/-- A tree all of whose strict descendants are traversable element
nodes; the root itself is exempt because the source calls `traverse` on
it directly. -/
def cleanN (n : DNode) : Bool :=
  cleanF n.children && cleanF n.shadow

/-- `getElementsByTagName(name)`-style light-DOM collection over a
forest. -/
def lightByNameF (name : String) : DForest → List DNode
  | .nil => []
  | .cons (.mk i n cs sh) t =>
    (if n = name then [DNode.mk i n cs sh] else []) ++
      lightByNameF name cs ++ lightByNameF name t

/-- `document.getElementsByTagName(name)` on the tree rooted at the node
(the source only calls this on a document, whose own name is never
`IFRAME`, so matching the root too is harmless and we keep the simple
shape). -/
def lightByNameN (name : String) (n : DNode) : List DNode :=
  (if n.nodeName = name then [n] else []) ++ lightByNameF name n.children

/-- The ids of the nodes in a forest whose shadow root the traversal
registers with the boundary tracker (`_observeShadowRoot`). -/
def shadowRootIdsF : DForest → List Nat
  | .nil => []
  | .cons (.mk i n cs sh) t =>
    (if traversableChild (.mk i n cs sh) then
      (match sh with
        | .nil => []
        | .cons _ _ => [i]) ++ shadowRootIdsF cs ++ shadowRootIdsF sh
    else []) ++ shadowRootIdsF t

/-- The shadow roots the traversal of the tree rooted at the node
registers. -/
def shadowRootIdsN (n : DNode) : List Nat :=
  (match n.shadow with
    | .nil => []
    | .cons _ _ => [n.id]) ++ shadowRootIdsF n.children ++ shadowRootIdsF n.shadow


/-! ## Scanner (media-element observer, `scanForMedia` / `scanAll`) -/

/-- Identity-keyed deduplication, keeping the first occurrence — the
`[...new Set(xs)]` idiom of the source, with JS reference identity
modelled by node ids. -/
def dedupByIdGo (seen : List Nat) : List DNode → List DNode
  | [] => []
  | x :: xs =>
    if x.id ∈ seen then dedupByIdGo seen xs
    else x :: dedupByIdGo (x.id :: seen) xs

/-- `[...new Set(xs)]`. -/
def dedupById (xs : List DNode) : List DNode := dedupByIdGo [] xs

/-- The site handler as the scanner consumes it: the special videos the
adapter detects on the document, the per-element ignore verdict, and, per
configured container selector, the outcome of that selector's scan.
An `.error` entry models a selector whose `querySelectorAll` throws; an
`.ok` entry carries the media collected from the matched containers.
Modelled from the spec: `DomUtils.findMediaElements` (not under `src/`)
is the step that collects the media elements within a matched container,
so each selector's contribution is carried as its already-collected
media list. -/
structure ScannerSite where
  specialVideos : List DNode
  ignoreId : Nat → Bool
  containerScans : List (Except String (List DNode))

/-- What an iframe's `contentDocument` access yields. -/
inductive FrameAccess where
  | crossOrigin
  | noDocument
  | document (d : DNode)

/-- Embedding of `MediaElementObserver.scanForMedia`: `querySelectorAll`
media, the shadow-piercing traversal, the adapter's special videos;
deduplicate, then drop the site-handler-ignored ones. -/
def scanForMedia (site : ScannerSite) (audio : Bool) (doc : DNode) :
    List DNode :=
  let tags := mediaTags audio
  let unique := dedupById
    (lightMediaN tags doc ++ traverseMediaN tags doc ++ site.specialVideos)
  unique.filter (fun m => ¬site.ignoreId m.id)

/-- Embedding of `scanSiteSpecificContainers`: each selector is evaluated
independently, a throwing selector contributes nothing. -/
def scanSiteSpecificContainers (site : ScannerSite) : List DNode :=
  site.containerScans.flatMap (fun r =>
    match r with
    | .ok ms => ms
    | .error _ => [])

/-- Embedding of `scanIframes`: every `iframe` of the document's light
tree is visited; a cross-origin access or a missing `contentDocument`
contributes nothing, an accessible child document is scanned with
`scanForMedia`. -/
def scanIframes (site : ScannerSite) (audio : Bool)
    (frames : Nat → FrameAccess) (doc : DNode) : List DNode :=
  (lightByNameN "IFRAME" doc).flatMap (fun fr =>
    match frames fr.id with
    | .crossOrigin => []
    | .noDocument => []
    | .document d => scanForMedia site audio d)

/-- Embedding of `scanAll`: the deduplicated union of the document scan,
the container-selector scan and the iframe scan. -/
def scanAll (site : ScannerSite) (audio : Bool) (frames : Nat → FrameAccess)
    (doc : DNode) : List DNode :=
  dedupById
    (scanForMedia site audio doc ++ scanSiteSpecificContainers site ++
      scanIframes site audio frames doc)

/-- `scanAll` together with its side effect on the boundary tracker: the
traversals register every shadow root they meet (in the document and in
every accessible iframe document); the returned element list does not
depend on that state. -/
def scanAllWithState (site : ScannerSite) (audio : Bool)
    (frames : Nat → FrameAccess) (doc : DNode) (st : List Nat) :
    List DNode × List Nat :=
  (scanAll site audio frames doc,
    st ++ shadowRootIdsN doc ++
      (lightByNameN "IFRAME" doc).flatMap (fun fr =>
        match frames fr.id with
        | .crossOrigin => []
        | .noDocument => []
        | .document d => shadowRootIdsN d))

/-! ## Helper lemmas -/

/-- The `|| default` lookup never yields a falsy number when the default
is nonzero. -/
theorem jsOrNum_ne_zero (x : Option Rat) {d : Rat} (hd : d ≠ 0) :
    jsOrNum x d ≠ 0 := by
  cases x with
  | none => simpa [jsOrNum] using hd
  | some v =>
    by_cases hv : v = 0 <;> simp [jsOrNum, hv, hd]

/-- Unfolding of the application decision inside `initializeSpeed`. -/
theorem initializeSpeed_application_eq (g : String → String) (cfg : Settings)
    (fast : Rat) (v : VideoElem) :
    (initializeSpeed g cfg fast v).application
      = if cfg.forceLastSavedSpeed ∧ (initializeSpeed g cfg fast v).targetSpeed ≠ 1
        then SpeedApplication.dispatchRateChange
          (toFixed1 (initializeSpeed g cfg fast v).targetSpeed)
        else SpeedApplication.assignPlaybackRate
          (initializeSpeed g cfg fast v).targetSpeed := rfl

/-- Unfolding of the attached map left by `removeController`. -/
theorem removeController_attached (c : ControllerState) (w : World) :
    (removeController c w).attached
      = w.attached.filter (fun p => p.1 ≠ c.videoId) := by
  simp only [removeController]
  split <;> rfl

/-- With a missing insertion point, every branch of `insertIntoDOM`
throws a `TypeError`. -/
theorem insertIntoDOM_none_error (pos : PositioningInfo) (wid : Nat)
    (hpos : pos.insertionPoint = none) :
    insertIntoDOM pos wid
      = .error (.typeError
          (if pos.insertionMethod = "beforeParent"
              ∨ pos.insertionMethod = "afterParent"
            then "null insertionPoint: reading parentElement"
            else "null insertionPoint: calling insertBefore")) := by
  by_cases h1 : pos.insertionMethod = "beforeParent"
  · simp [insertIntoDOM, h1, hpos]
  · by_cases h2 : pos.insertionMethod = "afterParent"
    · simp [insertIntoDOM, h1, h2, hpos]
    · simp [insertIntoDOM, h1, h2, hpos]

/-- A clean forest traverses without skipping: the filtered traversal
collects exactly the full children-then-shadow enumeration. -/
theorem traverseMediaF_eq_allMediaF (tags : List String) (f : DForest)
    (h : cleanF f = true) : traverseMediaF tags f = allMediaF tags f := by
  cases f with
  | nil => rfl
  | cons hd t =>
    cases hd with
    | mk i n cs sh =>
      simp only [cleanF, Bool.and_eq_true] at h
      obtain ⟨⟨⟨h1, h2⟩, h3⟩, h4⟩ := h
      simp only [traverseMediaF, allMediaF, h1, if_true,
        traverseMediaF_eq_allMediaF tags cs h2,
        traverseMediaF_eq_allMediaF tags sh h3,
        traverseMediaF_eq_allMediaF tags t h4, List.append_assoc]

/-- On a tree whose descendants are clean, the shadow-piercing traversal
finds exactly all media. -/
theorem traverseMediaN_eq_allMediaN (tags : List String) (n : DNode)
    (h : cleanN n = true) : traverseMediaN tags n = allMediaN tags n := by
  simp only [cleanN, Bool.and_eq_true] at h
  simp only [traverseMediaN, allMediaN,
    traverseMediaF_eq_allMediaF tags n.children h.1,
    traverseMediaF_eq_allMediaF tags n.shadow h.2]

/-- As multisets, the full media enumeration of a forest splits into its
light media and its shadow media. -/
theorem allMediaF_multiset (tags : List String) (f : DForest) :
    (↑(allMediaF tags f) : Multiset DNode)
      = ↑(lightMediaF tags f) + ↑(shadowMediaF tags f) := by
  cases f with
  | nil => rfl
  | cons hd t =>
    cases hd with
    | mk i n cs sh =>
      have ih1 := allMediaF_multiset tags cs
      have ih2 := allMediaF_multiset tags t
      simp only [allMediaF, lightMediaF, shadowMediaF, ← Multiset.coe_add] at *
      rw [ih1, ih2]
      abel

/-- As multisets, the full media enumeration of a tree splits into its
light media and its shadow media. -/
theorem allMediaN_multiset (tags : List String) (n : DNode) :
    (↑(allMediaN tags n) : Multiset DNode)
      = ↑(lightMediaN tags n) + ↑(shadowMediaN tags n) := by
  simp only [allMediaN, lightMediaN, shadowMediaN, ← Multiset.coe_add]
  rw [allMediaF_multiset tags n.children]
  abel

/-- Every id occurs at least as often in a forest's id enumeration as in
its media enumeration. -/
theorem allMedia_count_le (tags : List String) (x : Nat) (f : DForest) :
    ((allMediaF tags f).map DNode.id).count x ≤ (allIdsF f).count x := by
  cases f with
  | nil => simp [allMediaF, allIdsF]
  | cons hd t =>
    cases hd with
    | mk i n cs sh =>
      have ih1 := allMedia_count_le tags x cs
      have ih2 := allMedia_count_le tags x sh
      have ih3 := allMedia_count_le tags x t
      by_cases htag : n ∈ tags <;>
        by_cases hix : (i == x) = true <;>
        simp only [allMediaF, allIdsF, htag, if_true, if_false,
          List.map_append, List.count_append, List.map_cons, List.map_nil,
          List.count_cons, List.count_nil, List.cons_append, List.nil_append,
          hix, Bool.false_eq_true, DNode.id] <;>
        omega

/-- Every id occurs at least as often in a forest's id enumeration as in
its light and shadow media enumerations combined. -/
theorem light_shadow_count_le (tags : List String) (x : Nat) (f : DForest) :
    ((lightMediaF tags f).map DNode.id).count x
      + ((shadowMediaF tags f).map DNode.id).count x
      ≤ (allIdsF f).count x := by
  cases f with
  | nil => simp [lightMediaF, shadowMediaF, allIdsF]
  | cons hd t =>
    cases hd with
    | mk i n cs sh =>
      have ih1 := light_shadow_count_le tags x cs
      have ih2 := light_shadow_count_le tags x t
      have iha := allMedia_count_le tags x sh
      by_cases htag : n ∈ tags <;>
        by_cases hix : (i == x) = true <;>
        simp only [lightMediaF, shadowMediaF, allIdsF, htag, if_true, if_false,
          List.map_append, List.count_append, List.map_cons, List.map_nil,
          List.count_cons, List.count_nil, List.cons_append, List.nil_append,
          hix, Bool.false_eq_true, DNode.id] <;>
        omega

/-- The combined light and shadow media ids of a tree are, as a
sub-multiset, contained in the tree's id enumeration. -/
theorem light_shadow_subperm (tags : List String) (n : DNode) :
    List.Subperm
      ((lightMediaN tags n).map DNode.id ++ (shadowMediaN tags n).map DNode.id)
      (allIdsN n) := by
  rw [List.subperm_ext_iff]
  intro x _
  have h1 := light_shadow_count_le tags x n.children
  have h2 := allMedia_count_le tags x n.shadow
  by_cases htag : n.nodeName ∈ tags <;>
    by_cases hix : (n.id == x) = true <;>
    simp only [lightMediaN, shadowMediaN, allIdsN, htag, if_true, if_false,
      List.map_append, List.count_append, List.map_cons, List.map_nil,
      List.count_cons, List.count_nil, List.cons_append, List.nil_append,
      hix, Bool.false_eq_true] <;>
    omega

/-- Identity-deduplication produces pairwise distinct ids, none of them
in the seen set. -/
theorem dedupByIdGo_ids_nodup (xs : List DNode) : ∀ seen : List Nat,
    ((dedupByIdGo seen xs).map DNode.id).Nodup
    ∧ ∀ a ∈ (dedupByIdGo seen xs).map DNode.id, a ∉ seen := by
  induction xs with
  | nil => intro seen; simp [dedupByIdGo]
  | cons x xs ih =>
    intro seen
    by_cases hx : x.id ∈ seen
    · simp only [dedupByIdGo, if_pos hx]
      exact ih seen
    · simp only [dedupByIdGo, if_neg hx, List.map_cons, List.nodup_cons]
      refine ⟨⟨?_, (ih (x.id :: seen)).1⟩, ?_⟩
      · intro hmem
        exact (ih (x.id :: seen)).2 x.id hmem (List.mem_cons_self _ _)
      · intro a ha
        rcases List.mem_cons.mp ha with rfl | ha'
        · exact hx
        · intro hseen
          exact (ih (x.id :: seen)).2 a ha' (List.mem_cons_of_mem _ hseen)

/-- Deduplication is the identity on a list whose ids are already
distinct and disjoint from the seen set. -/
theorem dedupByIdGo_eq_self (xs : List DNode) : ∀ seen : List Nat,
    (xs.map DNode.id).Nodup → (∀ a ∈ xs.map DNode.id, a ∉ seen) →
    dedupByIdGo seen xs = xs := by
  induction xs with
  | nil => intro seen _ _; rfl
  | cons x xs ih =>
    intro seen hnd hdisj
    have hx : x.id ∉ seen := hdisj x.id (by simp)
    simp only [dedupByIdGo, if_neg hx]
    rw [List.map_cons, List.nodup_cons] at hnd
    refine congrArg (x :: ·) (ih (x.id :: seen) hnd.2 ?_)
    intro a ha
    rw [List.mem_cons]
    rintro (rfl | hseen)
    · exact hnd.1 ha
    · exact hdisj a (List.mem_cons_of_mem _ ha) hseen

/-- The length of the deduplication is the number of distinct ids not
yet seen. -/
theorem dedupByIdGo_length (xs : List DNode) : ∀ seen : List Nat,
    (dedupByIdGo seen xs).length
      = ((xs.map DNode.id).toFinset \ seen.toFinset).card := by
  induction xs with
  | nil => intro seen; simp [dedupByIdGo]
  | cons x xs ih =>
    intro seen
    by_cases hx : x.id ∈ seen
    · rw [dedupByIdGo, if_pos hx, ih seen]
      congr 1
      ext b
      simp only [Finset.mem_sdiff, List.mem_toFinset, List.map_cons,
        List.mem_cons]
      constructor
      · rintro ⟨hb, hbs⟩
        exact ⟨Or.inr hb, hbs⟩
      · rintro ⟨hb | hb, hbs⟩
        · exact absurd (hb ▸ hx) hbs
        · exact ⟨hb, hbs⟩
    · rw [dedupByIdGo, if_neg hx]
      rw [List.length_cons, ih (x.id :: seen)]
      have h1 : ((x :: xs).map DNode.id).toFinset \ seen.toFinset
          = insert x.id ((xs.map DNode.id).toFinset \ seen.toFinset) := by
        ext b
        simp only [Finset.mem_sdiff, List.mem_toFinset, List.map_cons,
          List.mem_cons, Finset.mem_insert]
        constructor
        · rintro ⟨hb | hb, hbs⟩
          · exact Or.inl hb
          · exact Or.inr ⟨hb, hbs⟩
        · rintro (rfl | ⟨hb, hbs⟩)
          · exact ⟨Or.inl rfl, hx⟩
          · exact ⟨Or.inr hb, hbs⟩
      have h2 : (xs.map DNode.id).toFinset \ (x.id :: seen).toFinset
          = ((xs.map DNode.id).toFinset \ seen.toFinset).erase x.id := by
        ext b
        simp only [Finset.mem_sdiff, List.mem_toFinset, List.toFinset_cons,
          Finset.mem_insert, Finset.mem_erase]
        constructor
        · rintro ⟨hb, hbs⟩
          push_neg at hbs
          exact ⟨hbs.1, hb, hbs.2⟩
        · rintro ⟨hbx, hb, hbs⟩
          exact ⟨hb, by
            rintro (h | h)
            · exact hbx h
            · exact hbs h⟩
      rw [h1, h2]
      by_cases hmem : x.id ∈ (xs.map DNode.id).toFinset \ seen.toFinset
      · rw [Finset.insert_eq_self.mpr hmem, Finset.card_erase_of_mem hmem]
        have hpos : 0 < ((xs.map DNode.id).toFinset \ seen.toFinset).card :=
          Finset.card_pos.mpr ⟨x.id, hmem⟩
        omega
      · rw [Finset.card_insert_of_not_mem hmem,
          Finset.erase_eq_of_not_mem hmem]

/-- The ids of `dedupById xs` are pairwise distinct. -/
theorem dedupById_ids_nodup (xs : List DNode) :
    ((dedupById xs).map DNode.id).Nodup :=
  (dedupByIdGo_ids_nodup xs []).1

/-- `dedupById` leaves a list with distinct ids unchanged. -/
theorem dedupById_eq_self (xs : List DNode)
    (h : (xs.map DNode.id).Nodup) : dedupById xs = xs :=
  dedupByIdGo_eq_self xs [] h (by simp)

/-- The length of `dedupById xs` is the number of distinct ids in `xs`. -/
theorem dedupById_length (xs : List DNode) :
    (dedupById xs).length = (xs.map DNode.id).toFinset.card := by
  rw [dedupById, dedupByIdGo_length xs []]
  simp

/-- A successful `create` of a fresh element appends exactly one
attachment, keyed by the element, carrying the returned controller. -/
theorem create_none_ok_attached (g : String → String) (cfg : Settings)
    (fast : Rat) (pos : PositioningInfo) (v : VideoElem) (w : World)
    (c : ControllerState) (w1 : World)
    (hfind : w.attached.find? (fun q => q.1 = v.id) = none)
    (hc : create g cfg fast pos v w = (.ok c, w1)) :
    w1.attached = w.attached ++ [(v.id, c)] := by
  simp only [create, hfind] at hc
  cases happ : (initializeSpeed g cfg fast v).application with
  | dispatchRateChange s =>
    simp only [happ] at hc
    split at hc
    · simp at hc
    · rw [Prod.mk.injEq] at hc
      obtain ⟨hc1, hc2⟩ := hc
      have hcc := Except.ok.inj hc1
      rw [← hc2]
      simp [hcc]
  | assignPlaybackRate r =>
    simp only [happ] at hc
    split at hc
    · simp at hc
    · rw [Prod.mk.injEq] at hc
      obtain ⟨hc1, hc2⟩ := hc
      have hcc := Except.ok.inj hc1
      rw [← hc2]
      simp [hcc]

/-! ## Claim theorems -/

/-- C1, counterexample: with remember-speed enabled, no stored per-source
rate for the element's source, and a global last-used rate of `3 ≠ 1`,
`initializeSpeed` resolves the target rate to `1`, not to the last-used
rate — the claimed fallback to the global last-used rate does not happen. -/
theorem c1_lastSpeed_fallback_counterexample :
    (initializeSpeed id
      { speeds := [], rememberSpeed := true, lastSpeed := some 3,
        forceLastSavedSpeed := false, startHidden := false, audioBoolean := false }
      4 { id := 1, src := "", currentSrc := "https://h/v", playbackRate := 1 }).targetSpeed
      ≠ 3
    ∧ (initializeSpeed id
      { speeds := [], rememberSpeed := true, lastSpeed := some 3,
        forceLastSavedSpeed := false, startHidden := false, audioBoolean := false }
      4 { id := 1, src := "", currentSrc := "https://h/v", playbackRate := 1 }).targetSpeed
      = 1 := by
  constructor <;> decide

/-- C1 (amended): with remember-speed enabled, `create` resolves the
target rate by the stored lookup keyed by the normalized current source
(falling back to the direct source when the current source is empty); the
lookup itself defaults to `1.0` when no entry exists, so the global
last-used rate is never consulted: with no stored entry the resolved rate
is `1.0`, and a stored nonzero rate is used as-is. -/
theorem c1_initializeSpeed_stored_only (g : String → String) (cfg : Settings)
    (fast : Rat) (v : VideoElem) (hr : cfg.rememberSpeed = true) :
    (lookupSpeed cfg.speeds (g (jsOrStr v.currentSrc v.src)) = none →
      (initializeSpeed g cfg fast v).targetSpeed = 1)
    ∧ (∀ r, lookupSpeed cfg.speeds (g (jsOrStr v.currentSrc v.src)) = some r →
        r ≠ 0 → (initializeSpeed g cfg fast v).targetSpeed = r) := by
  constructor
  · intro h
    simp [initializeSpeed, h, jsOrNum, hr]
  · intro r h hr0
    simp [initializeSpeed, h, jsOrNum, hr, hr0]

/-- C1 witness: a concrete element with no stored per-source rate
resolves to rate `1`. -/
theorem c1_initializeSpeed_stored_only_witness :
    (initializeSpeed id
      { speeds := [], rememberSpeed := true, lastSpeed := some 3,
        forceLastSavedSpeed := false, startHidden := false, audioBoolean := false }
      4 { id := 2, src := "", currentSrc := "https://h/w", playbackRate := 1 }).targetSpeed
      = 1 :=
  (c1_initializeSpeed_stored_only id
    { speeds := [], rememberSpeed := true, lastSpeed := some 3,
      forceLastSavedSpeed := false, startHidden := false, audioBoolean := false }
    4 { id := 2, src := "", currentSrc := "https://h/w", playbackRate := 1 } rfl).1 rfl

/-- C3, counterexample: with remember-speed disabled and a stored
per-source rate of `3` for the event target's source, the handler passes
`3` to `setSpeed`, not the claimed forced `1.0`. -/
theorem c3_force_one_counterexample :
    (mediaEventAction id
      { speeds := [("https://h/v", 3)], rememberSpeed := false, lastSpeed := none,
        forceLastSavedSpeed := false, startHidden := false, audioBoolean := false }
      4 "https://h/v").setSpeedArg = 3
    ∧ ((3 : Rat) ≠ 1) := by
  constructor <;> decide

/-- C3 (amended): on every play/seek with remember-speed disabled the
handler passes the stored per-source rate (defaulting to `1.0` only when
no entry exists — the explicit overwrite-to-`1.0` branch is unreachable
because the lookup default is already truthy) to the action handler's
`setSpeed`, and sets the `reset` key binding to the configured fast rate
on every such event. -/
theorem c3_mediaEventAction_remember_disabled (g : String → String)
    (cfg : Settings) (fast : Rat) (s : String)
    (h : cfg.rememberSpeed = false) :
    (mediaEventAction g cfg fast s).setSpeedArg
      = jsOrNum (lookupSpeed cfg.speeds (g s)) 1
    ∧ (mediaEventAction g cfg fast s).resetBindingSet = some fast := by
  have hnz : jsOrNum (lookupSpeed cfg.speeds (g s)) 1 ≠ 0 :=
    jsOrNum_ne_zero _ one_ne_zero
  constructor <;> simp [mediaEventAction, h, hnz]

/-- C3 witness: a concrete play/seek event with remember-speed disabled. -/
theorem c3_mediaEventAction_remember_disabled_witness :
    (mediaEventAction id
      { speeds := [("https://h/v", 3)], rememberSpeed := false, lastSpeed := none,
        forceLastSavedSpeed := false, startHidden := false, audioBoolean := false }
      4 "https://h/v").setSpeedArg
      = jsOrNum (lookupSpeed [("https://h/v", 3)] (id "https://h/v")) 1
    ∧ (mediaEventAction id
      { speeds := [("https://h/v", 3)], rememberSpeed := false, lastSpeed := none,
        forceLastSavedSpeed := false, startHidden := false, audioBoolean := false }
      4 "https://h/v").resetBindingSet = some 4 :=
  c3_mediaEventAction_remember_disabled id
    { speeds := [("https://h/v", 3)], rememberSpeed := false, lastSpeed := none,
      forceLastSavedSpeed := false, startHidden := false, audioBoolean := false }
    4 "https://h/v" rfl

/-- C6: when the force-last-saved-speed flag is set and the resolved
target rate differs from `1.0`, `initializeSpeed` emits the synthetic
rate-change notification carrying the rate formatted to one decimal place
(`"2.0"` for a resolved target of `2`), and never assigns the rate
directly; otherwise (flag unset, or rate equal to `1.0`) it assigns the
rate directly. -/
theorem c6_force_dispatches_ratechange (g : String → String) (cfg : Settings)
    (fast : Rat) (v : VideoElem) :
    (cfg.forceLastSavedSpeed = true →
      (initializeSpeed g cfg fast v).targetSpeed ≠ 1 →
      (initializeSpeed g cfg fast v).application
        = SpeedApplication.dispatchRateChange
            (toFixed1 (initializeSpeed g cfg fast v).targetSpeed))
    ∧ ((initializeSpeed g cfg fast v).targetSpeed = 2 →
      toFixed1 (initializeSpeed g cfg fast v).targetSpeed = "2.0")
    ∧ ((cfg.forceLastSavedSpeed = false ∨
        (initializeSpeed g cfg fast v).targetSpeed = 1) →
      (initializeSpeed g cfg fast v).application
        = SpeedApplication.assignPlaybackRate
            (initializeSpeed g cfg fast v).targetSpeed) := by
  refine ⟨?_, ?_, ?_⟩
  · intro hf ht
    rw [initializeSpeed_application_eq, if_pos ⟨hf, ht⟩]
  · intro h2
    rw [h2]
    decide
  · intro h
    rw [initializeSpeed_application_eq, if_neg]
    rintro ⟨hf, ht⟩
    rcases h with h | h
    · rw [h] at hf; cases hf
    · exact ht h

/-- C6 witness: a concrete element with a stored rate of `2`,
remember-speed on and force-last-saved-speed on dispatches the synthetic
notification carrying `"2.0"`. -/
theorem c6_force_dispatches_ratechange_witness :
    (initializeSpeed id
      { speeds := [("https://h/v", 2)], rememberSpeed := true, lastSpeed := none,
        forceLastSavedSpeed := true, startHidden := false, audioBoolean := false }
      4 { id := 1, src := "", currentSrc := "https://h/v", playbackRate := 1 }).application
      = SpeedApplication.dispatchRateChange
          (toFixed1 (initializeSpeed id
            { speeds := [("https://h/v", 2)], rememberSpeed := true, lastSpeed := none,
              forceLastSavedSpeed := true, startHidden := false, audioBoolean := false }
            4 { id := 1, src := "", currentSrc := "https://h/v", playbackRate := 1 }).targetSpeed)
    ∧ toFixed1 (initializeSpeed id
        { speeds := [("https://h/v", 2)], rememberSpeed := true, lastSpeed := none,
          forceLastSavedSpeed := true, startHidden := false, audioBoolean := false }
        4 { id := 1, src := "", currentSrc := "https://h/v", playbackRate := 1 }).targetSpeed
      = "2.0" :=
  ⟨(c6_force_dispatches_ratechange id
      { speeds := [("https://h/v", 2)], rememberSpeed := true, lastSpeed := none,
        forceLastSavedSpeed := true, startHidden := false, audioBoolean := false }
      4 { id := 1, src := "", currentSrc := "https://h/v", playbackRate := 1 }).1
      rfl (by decide),
   (c6_force_dispatches_ratechange id
      { speeds := [("https://h/v", 2)], rememberSpeed := true, lastSpeed := none,
        forceLastSavedSpeed := true, startHidden := false, audioBoolean := false }
      4 { id := 1, src := "", currentSrc := "https://h/v", playbackRate := 1 }).2.1
      (by decide)⟩

/-- C7: `isValidMediaElement` evaluates its rules in order with
short-circuiting — a disconnected element is rejected; a hidden or
zero-opacity element is rejected; below readiness 2 the size check is
skipped and the element is accepted exactly when the site handler does
not ignore it; at readiness 2 or above acceptance requires the 50×50
bounding box minimum and the site handler's consent; and an ignore
verdict rejects regardless of every other check. -/
theorem c7_isValidMediaElement_rules (m : MediaCheck) :
    (m.isConnected = false → isValidMediaElement m = false)
    ∧ ((m.display = "none" ∨ m.visibility = "hidden" ∨ m.opacity = "0") →
        isValidMediaElement m = false)
    ∧ (m.isConnected = true →
        ¬(m.display = "none" ∨ m.visibility = "hidden" ∨ m.opacity = "0") →
        m.readyState < 2 →
        isValidMediaElement m = !m.ignoredBySiteHandler)
    ∧ (m.isConnected = true →
        ¬(m.display = "none" ∨ m.visibility = "hidden" ∨ m.opacity = "0") →
        2 ≤ m.readyState →
        (isValidMediaElement m = true ↔
          (50 ≤ m.rectWidth ∧ 50 ≤ m.rectHeight ∧ m.ignoredBySiteHandler = false)))
    ∧ (m.ignoredBySiteHandler = true → isValidMediaElement m = false) := by
  refine ⟨?_, ?_, ?_, ?_, ?_⟩
  · intro h
    simp [isValidMediaElement, h]
  · intro h
    rcases h with h | h | h <;> simp [isValidMediaElement, h]
  · intro h1 h2 h3
    cases hig : m.ignoredBySiteHandler <;>
      simp [isValidMediaElement, h1, h2, h3, hig]
  · intro h1 h2 h3
    have h3' : ¬m.readyState < 2 := not_lt.mpr h3
    by_cases hw : m.rectWidth < 50 ∨ m.rectHeight < 50
    · have hfalse : isValidMediaElement m = false := by
        simp [isValidMediaElement, h1, h2, h3', hw]
      rw [hfalse]
      constructor
      · intro hab
        exact absurd hab (by simp)
      · rintro ⟨ha, hb, -⟩
        exfalso
        rcases hw with hw | hw <;> linarith
    · rw [not_or, not_lt, not_lt] at hw
      cases hig : m.ignoredBySiteHandler <;>
        simp [isValidMediaElement, h1, h2, h3', hig, hw.1, hw.2,
          not_lt.mpr hw.1, not_lt.mpr hw.2]
  · intro h
    simp only [isValidMediaElement, h]
    split_ifs <;> rfl

/-- C7 witness: concrete elements exercising each rule — a disconnected
element, a hidden one, a still-loading visible one, a loaded well-sized
one, and a loaded one vetoed by the site handler. -/
theorem c7_isValidMediaElement_rules_witness :
    isValidMediaElement
      { isConnected := false, display := "block", visibility := "visible",
        opacity := "1", readyState := 4, rectWidth := 640, rectHeight := 360,
        ignoredBySiteHandler := false } = false
    ∧ isValidMediaElement
      { isConnected := true, display := "none", visibility := "visible",
        opacity := "1", readyState := 4, rectWidth := 640, rectHeight := 360,
        ignoredBySiteHandler := false } = false
    ∧ isValidMediaElement
      { isConnected := true, display := "block", visibility := "visible",
        opacity := "1", readyState := 0, rectWidth := 0, rectHeight := 0,
        ignoredBySiteHandler := false } = !false
    ∧ (isValidMediaElement
      { isConnected := true, display := "block", visibility := "visible",
        opacity := "1", readyState := 4, rectWidth := 640, rectHeight := 360,
        ignoredBySiteHandler := false } = true ↔
        (50 ≤ (640 : Rat) ∧ 50 ≤ (360 : Rat) ∧ false = false))
    ∧ isValidMediaElement
      { isConnected := true, display := "block", visibility := "visible",
        opacity := "1", readyState := 4, rectWidth := 640, rectHeight := 360,
        ignoredBySiteHandler := true } = false :=
  ⟨(c7_isValidMediaElement_rules _).1 rfl,
   (c7_isValidMediaElement_rules _).2.1 (Or.inl rfl),
   (c7_isValidMediaElement_rules _).2.2.1 rfl (by decide) (by decide),
   (c7_isValidMediaElement_rules _).2.2.2.1 rfl (by decide) (by decide),
   (c7_isValidMediaElement_rules _).2.2.2.2 rfl⟩

/-- C9: a delivered attribute mutation of `src`/`currentSrc` leaves the
wrapper's `vsc-nosource` class present exactly when both the element's
direct and current source values are empty, and the observer callback
never removes a `vsc` attachment — the set of controlled elements is
unchanged by any batch of mutations. -/
theorem c9_source_mutation_nosource (v : VideoElem) (m : MutationRecord)
    (cl : List String) :
    (m.type = "attributes" →
      (m.attributeName = "src" ∨ m.attributeName = "currentSrc") →
      ("vsc-nosource" ∈ processMutation v m cl ↔
        (v.src = "" ∧ v.currentSrc = "")))
    ∧ ∀ (ms : List MutationRecord) (w : World),
        (mutationCallback v ms w).attached.map Prod.fst
          = w.attached.map Prod.fst := by
  constructor
  · intro ht ha
    by_cases hs : v.src = "" ∧ v.currentSrc = ""
    · simp only [processMutation, if_pos (And.intro ht ha), if_pos hs,
        classListAdd]
      constructor
      · intro _; exact hs
      · intro _
        split
        · assumption
        · simp
    · simp [processMutation, if_pos (And.intro ht ha), if_neg hs,
        classListRemove, List.mem_filter, hs]
  · intro ms w
    simp only [mutationCallback]
    generalize w.attached = l
    induction l with
    | nil => rfl
    | cons p t ih =>
      by_cases hp : p.1 = v.id <;> simp [hp, ih]

/-- C9 witness: a concrete `src` mutation on an element whose sources
just became empty makes `vsc-nosource` present, and a concrete callback
batch leaves the controlled-element keys unchanged. -/
theorem c9_source_mutation_nosource_witness :
    ("vsc-nosource" ∈ processMutation
      { id := 1, src := "", currentSrc := "", playbackRate := 1 }
      { type := "attributes", attributeName := "src" }
      ["vsc-controller", "vcs-show"] ↔
      (("" : String) = "" ∧ ("" : String) = ""))
    ∧ (mutationCallback
        { id := 1, src := "", currentSrc := "", playbackRate := 1 }
        [{ type := "attributes", attributeName := "src" }]
        { nextId := 2, attached := [(1,
            { videoId := 1, divId := 0, divClasses := ["vsc-controller"],
              speedText := "1.0" })],
          mediaElements := [1], domDivs := [0], playListeners := [(1, 0)],
          seekListeners := [(1, 0)], activeObservers := [0], resetBinding := 1,
          dispatchedEvents := [], assignedRates := [] }).attached.map Prod.fst
      = ({ nextId := 2, attached := [(1,
             { videoId := 1, divId := 0, divClasses := ["vsc-controller"],
               speedText := "1.0" })],
           mediaElements := [1], domDivs := [0], playListeners := [(1, 0)],
           seekListeners := [(1, 0)], activeObservers := [0], resetBinding := 1,
           dispatchedEvents := [], assignedRates := [] } : World).attached.map
          Prod.fst :=
  ⟨(c9_source_mutation_nosource
      { id := 1, src := "", currentSrc := "", playbackRate := 1 }
      { type := "attributes", attributeName := "src" }
      ["vsc-controller", "vcs-show"]).1 rfl (Or.inl rfl),
   (c9_source_mutation_nosource
      { id := 1, src := "", currentSrc := "", playbackRate := 1 }
      { type := "attributes", attributeName := "src" } []).2
      [{ type := "attributes", attributeName := "src" }] _⟩

/-- C10: at creation the `vsc-nosource` presentation state is decided
from the current source alone — for an element with an empty current
source but a non-empty direct `src` attribute the overlay is created with
`vsc-nosource` present, while the source-mutation path, fed the same
element, removes it (it requires both values empty); in general the
initial classes carry `vsc-nosource` exactly when the current source is
empty. -/
theorem c10_initial_nosource_from_currentSrc_only :
    "vsc-nosource" ∈ initialControlClasses
      { speeds := [], rememberSpeed := false, lastSpeed := none,
        forceLastSavedSpeed := false, startHidden := false, audioBoolean := false }
      { id := 1, src := "https://e/v.mp4", currentSrc := "", playbackRate := 1 }
    ∧ ({ id := 1, src := "https://e/v.mp4", currentSrc := "",
         playbackRate := 1 } : VideoElem).src ≠ ""
    ∧ "vsc-nosource" ∉ processMutation
        { id := 1, src := "https://e/v.mp4", currentSrc := "", playbackRate := 1 }
        { type := "attributes", attributeName := "src" }
        (initialControlClasses
          { speeds := [], rememberSpeed := false, lastSpeed := none,
            forceLastSavedSpeed := false, startHidden := false,
            audioBoolean := false }
          { id := 1, src := "https://e/v.mp4", currentSrc := "", playbackRate := 1 })
    ∧ ∀ (cfg : Settings) (v : VideoElem),
        ("vsc-nosource" ∈ initialControlClasses cfg v ↔ v.currentSrc = "") := by
  refine ⟨by decide, by decide, by decide, ?_⟩
  intro cfg v
  by_cases hs : v.currentSrc = "" <;> by_cases hh : cfg.startHidden <;>
    simp [initialControlClasses, classListAdd, hs, hh]

/-- C2, counterexample: with a missing (stale) insertion point, `create`
of a fresh element raises a `TypeError` out of the lifecycle instead of
skipping the attachment — the claim that `create` "does not raise an
error" is false on the code. -/
theorem c2_insertion_error_counterexample :
    (create id
      { speeds := [], rememberSpeed := false, lastSpeed := none,
        forceLastSavedSpeed := false, startHidden := false, audioBoolean := false }
      4 { insertionMethod := "firstChild", insertionPoint := none }
      { id := 1, src := "https://h/v", currentSrc := "https://h/v", playbackRate := 1 }
      { nextId := 0, attached := [], mediaElements := [], domDivs := [],
        playListeners := [], seekListeners := [], activeObservers := [],
        resetBinding := 1, dispatchedEvents := [], assignedRates := [] }).1
      = Except.error (JsError.typeError "null insertionPoint: calling insertBefore") :=
  rfl

/-- C2 (amended): a stale or missing overlay insertion point is fatal
only for that element, but via an uncaught `TypeError` that propagates
out of `create` (there is no skip-and-log): the document tree is not
touched (the wrapper stays in its detached fragment, no div enters the
DOM), no event subscriptions and no source observer are registered for
the element, and the controllers of all other elements — the attached
map — are left exactly as they were. -/
theorem c2_insertion_failure_isolated (g : String → String) (cfg : Settings)
    (fast : Rat) (pos : PositioningInfo) (v : VideoElem) (w : World)
    (hpos : pos.insertionPoint = none)
    (hnew : w.attached.find? (fun q => q.1 = v.id) = none) :
    (∃ msg, (create g cfg fast pos v w).1 = .error (.typeError msg))
    ∧ (create g cfg fast pos v w).2.domDivs = w.domDivs
    ∧ (create g cfg fast pos v w).2.attached = w.attached
    ∧ (create g cfg fast pos v w).2.playListeners = w.playListeners
    ∧ (create g cfg fast pos v w).2.seekListeners = w.seekListeners
    ∧ (create g cfg fast pos v w).2.activeObservers = w.activeObservers := by
  have hins : ∀ wid : Nat, insertIntoDOM pos wid
      = .error (.typeError
          (if pos.insertionMethod = "beforeParent"
              ∨ pos.insertionMethod = "afterParent"
            then "null insertionPoint: reading parentElement"
            else "null insertionPoint: calling insertBefore")) :=
    fun wid => insertIntoDOM_none_error pos wid hpos
  cases happ : (initializeSpeed g cfg fast v).application with
  | dispatchRateChange s =>
    refine ⟨⟨if pos.insertionMethod = "beforeParent"
        ∨ pos.insertionMethod = "afterParent"
      then "null insertionPoint: reading parentElement"
      else "null insertionPoint: calling insertBefore", ?_⟩, ?_, ?_, ?_, ?_, ?_⟩ <;>
      simp [create, hnew, happ, hins]
  | assignPlaybackRate r =>
    refine ⟨⟨if pos.insertionMethod = "beforeParent"
        ∨ pos.insertionMethod = "afterParent"
      then "null insertionPoint: reading parentElement"
      else "null insertionPoint: calling insertBefore", ?_⟩, ?_, ?_, ?_, ?_, ?_⟩ <;>
      simp [create, hnew, happ, hins]

/-- C2 witness: a concrete fresh element and a missing insertion point. -/
theorem c2_insertion_failure_isolated_witness :
    (∃ msg, (create id
      { speeds := [], rememberSpeed := false, lastSpeed := none,
        forceLastSavedSpeed := false, startHidden := false, audioBoolean := false }
      4 { insertionMethod := "beforeParent", insertionPoint := none }
      { id := 1, src := "https://h/v", currentSrc := "https://h/v", playbackRate := 1 }
      { nextId := 0, attached := [], mediaElements := [], domDivs := [],
        playListeners := [], seekListeners := [], activeObservers := [],
        resetBinding := 1, dispatchedEvents := [], assignedRates := [] }).1
      = .error (.typeError msg))
    ∧ (create id
      { speeds := [], rememberSpeed := false, lastSpeed := none,
        forceLastSavedSpeed := false, startHidden := false, audioBoolean := false }
      4 { insertionMethod := "beforeParent", insertionPoint := none }
      { id := 1, src := "https://h/v", currentSrc := "https://h/v", playbackRate := 1 }
      { nextId := 0, attached := [], mediaElements := [], domDivs := [],
        playListeners := [], seekListeners := [], activeObservers := [],
        resetBinding := 1, dispatchedEvents := [], assignedRates := [] }).2.attached
      = [] :=
  ⟨(c2_insertion_failure_isolated id
      { speeds := [], rememberSpeed := false, lastSpeed := none,
        forceLastSavedSpeed := false, startHidden := false, audioBoolean := false }
      4 { insertionMethod := "beforeParent", insertionPoint := none }
      { id := 1, src := "https://h/v", currentSrc := "https://h/v", playbackRate := 1 }
      { nextId := 0, attached := [], mediaElements := [], domDivs := [],
        playListeners := [], seekListeners := [], activeObservers := [],
        resetBinding := 1, dispatchedEvents := [], assignedRates := [] }
      rfl rfl).1,
   (c2_insertion_failure_isolated id
      { speeds := [], rememberSpeed := false, lastSpeed := none,
        forceLastSavedSpeed := false, startHidden := false, audioBoolean := false }
      4 { insertionMethod := "beforeParent", insertionPoint := none }
      { id := 1, src := "https://h/v", currentSrc := "https://h/v", playbackRate := 1 }
      { nextId := 0, attached := [], mediaElements := [], domDivs := [],
        playListeners := [], seekListeners := [], activeObservers := [],
        resetBinding := 1, dispatchedEvents := [], assignedRates := [] }
      rfl rfl).2.2.1⟩

/-- C4: `create` is idempotent — when a controller is already attached to
the element, `create` returns exactly that controller and the world
unchanged (no registry addition, no overlay, no listeners, no observer);
in particular a second `create` after a successful one returns the same
controller and the same world. -/
theorem c4_create_idempotent (g : String → String) (cfg : Settings)
    (fast : Rat) (pos : PositioningInfo) (v : VideoElem) (w : World) :
    (∀ p, w.attached.find? (fun q => q.1 = v.id) = some p →
      create g cfg fast pos v w = (.ok p.2, w))
    ∧ (∀ c w1, create g cfg fast pos v w = (.ok c, w1) →
      create g cfg fast pos v w1 = (.ok c, w1)) := by
  constructor
  · intro p hp
    simp [create, hp]
  · intro c w1 hc
    cases hfind : w.attached.find? (fun q => q.1 = v.id) with
    | some p =>
      have heq : create g cfg fast pos v w = (.ok p.2, w) := by
        simp [create, hfind]
      rw [heq] at hc
      rw [Prod.mk.injEq] at hc
      obtain ⟨hc1, hc2⟩ := hc
      rw [← hc2, heq, hc1]
    | none =>
      have hatt := create_none_ok_attached g cfg fast pos v w c w1 hfind hc
      have hf : w1.attached.find? (fun q => q.1 = v.id) = some (v.id, c) := by
        rw [hatt, List.find?_append, hfind]
        simp
      have : create g cfg fast pos v w1 = (.ok (v.id, c).2, w1) := by
        simp [create, hf]
      simpa using this

/-- C4 witness: `create` on a world that already carries a controller for
the element returns it with the world unchanged, and a concrete
`create`-then-`create` returns the identical pair. -/
theorem c4_create_idempotent_witness :
    create id
      { speeds := [], rememberSpeed := false, lastSpeed := none,
        forceLastSavedSpeed := false, startHidden := false, audioBoolean := false }
      4 { insertionMethod := "firstChild",
          insertionPoint := some
            { id := 9, parentId := some 8, nextSiblingId := none,
              firstChildId := none } }
      { id := 1, src := "", currentSrc := "https://h/v", playbackRate := 1 }
      { nextId := 7, attached := [(1,
          { videoId := 1, divId := 5, divClasses := ["vsc-controller"],
            speedText := "1.0" })],
        mediaElements := [1], domDivs := [5], playListeners := [(1, 5)],
        seekListeners := [(1, 5)], activeObservers := [5], resetBinding := 1,
        dispatchedEvents := [], assignedRates := [] }
      = (.ok
          { videoId := 1, divId := 5, divClasses := ["vsc-controller"],
            speedText := "1.0" },
         { nextId := 7, attached := [(1,
             { videoId := 1, divId := 5, divClasses := ["vsc-controller"],
               speedText := "1.0" })],
           mediaElements := [1], domDivs := [5], playListeners := [(1, 5)],
           seekListeners := [(1, 5)], activeObservers := [5], resetBinding := 1,
           dispatchedEvents := [], assignedRates := [] })
    ∧ create id
      { speeds := [("https://h/v", 2)], rememberSpeed := true, lastSpeed := none,
        forceLastSavedSpeed := false, startHidden := false, audioBoolean := false }
      4 { insertionMethod := "firstChild",
          insertionPoint := some
            { id := 9, parentId := some 8, nextSiblingId := none,
              firstChildId := none } }
      { id := 1, src := "", currentSrc := "https://h/v", playbackRate := 1 }
      { nextId := 101, attached := [(1,
          { videoId := 1, divId := 100, divClasses := ["vsc-controller", "vcs-show"],
            speedText := "2.0" })],
        mediaElements := [1], domDivs := [100], playListeners := [(1, 100)],
        seekListeners := [(1, 100)], activeObservers := [100], resetBinding := 2,
        dispatchedEvents := [], assignedRates := [(1, 2)] }
      = (.ok
          { videoId := 1, divId := 100,
            divClasses := ["vsc-controller", "vcs-show"], speedText := "2.0" },
         { nextId := 101, attached := [(1,
             { videoId := 1, divId := 100,
               divClasses := ["vsc-controller", "vcs-show"], speedText := "2.0" })],
           mediaElements := [1], domDivs := [100], playListeners := [(1, 100)],
           seekListeners := [(1, 100)], activeObservers := [100], resetBinding := 2,
           dispatchedEvents := [], assignedRates := [(1, 2)] }) :=
  ⟨(c4_create_idempotent id
      { speeds := [], rememberSpeed := false, lastSpeed := none,
        forceLastSavedSpeed := false, startHidden := false, audioBoolean := false }
      4 { insertionMethod := "firstChild",
          insertionPoint := some
            { id := 9, parentId := some 8, nextSiblingId := none,
              firstChildId := none } }
      { id := 1, src := "", currentSrc := "https://h/v", playbackRate := 1 }
      { nextId := 7, attached := [(1,
          { videoId := 1, divId := 5, divClasses := ["vsc-controller"],
            speedText := "1.0" })],
        mediaElements := [1], domDivs := [5], playListeners := [(1, 5)],
        seekListeners := [(1, 5)], activeObservers := [5], resetBinding := 1,
        dispatchedEvents := [], assignedRates := [] }).1
      (1, { videoId := 1, divId := 5, divClasses := ["vsc-controller"],
            speedText := "1.0" })
      (by decide),
   (c4_create_idempotent id
      { speeds := [("https://h/v", 2)], rememberSpeed := true, lastSpeed := none,
        forceLastSavedSpeed := false, startHidden := false, audioBoolean := false }
      4 { insertionMethod := "firstChild",
          insertionPoint := some
            { id := 9, parentId := some 8, nextSiblingId := none,
              firstChildId := none } }
      { id := 1, src := "", currentSrc := "https://h/v", playbackRate := 1 }
      { nextId := 100, attached := [], mediaElements := [], domDivs := [],
        playListeners := [], seekListeners := [], activeObservers := [],
        resetBinding := 1, dispatchedEvents := [], assignedRates := [] }).2
      { videoId := 1, divId := 100, divClasses := ["vsc-controller", "vcs-show"],
        speedText := "2.0" }
      { nextId := 101, attached := [(1,
          { videoId := 1, divId := 100,
            divClasses := ["vsc-controller", "vcs-show"], speedText := "2.0" })],
        mediaElements := [1], domDivs := [100], playListeners := [(1, 100)],
        seekListeners := [(1, 100)], activeObservers := [100], resetBinding := 2,
        dispatchedEvents := [], assignedRates := [(1, 2)] }
      rfl⟩

/-- C5: `destroy` is a safe no-op on already-destroyed or never-created
handles — on any world whose attachments are keyed consistently,
destroying the same handle twice equals destroying it once, and
destroying a handle with no attached controller changes nothing (and,
being a total function, raises nothing). -/
theorem c5_destroy_idempotent (w : World) (vid : Nat)
    (hwf : ∀ p ∈ w.attached, p.2.videoId = p.1) :
    destroy vid (destroy vid w) = destroy vid w
    ∧ (w.attached.find? (fun q => q.1 = vid) = none → destroy vid w = w) := by
  constructor
  · cases hfind : w.attached.find? (fun q => q.1 = vid) with
    | none => simp [destroy, hfind]
    | some p =>
      have hp1 : p.1 = vid := by simpa using List.find?_some hfind
      have hpv : p.2.videoId = vid := by
        rw [hwf p (List.mem_of_find?_eq_some hfind), hp1]
      have hw' : destroy vid w = removeController p.2 w := by
        simp [destroy, hfind]
      rw [hw']
      have hnone : (removeController p.2 w).attached.find?
          (fun q => q.1 = vid) = none := by
        rw [removeController_attached, List.find?_eq_none]
        intro x hx
        rw [List.mem_filter] at hx
        have hx2 := hx.2
        simp only [ne_eq, decide_not, Bool.not_eq_true', decide_eq_false_iff_not] at hx2
        simp only [decide_eq_true_eq]
        rw [hpv] at hx2
        exact hx2
      simp [destroy, hnone]
  · intro h
    simp [destroy, h]

/-- C5 witness: destroying a concretely attached handle twice equals
destroying it once, and destroying on an empty world is the identity. -/
theorem c5_destroy_idempotent_witness :
    (destroy 1 (destroy 1
      { nextId := 2, attached := [(1,
          { videoId := 1, divId := 0, divClasses := ["vsc-controller"],
            speedText := "1.0" })],
        mediaElements := [1], domDivs := [0], playListeners := [(1, 0)],
        seekListeners := [(1, 0)], activeObservers := [0], resetBinding := 1,
        dispatchedEvents := [], assignedRates := [] })
      = destroy 1
      { nextId := 2, attached := [(1,
          { videoId := 1, divId := 0, divClasses := ["vsc-controller"],
            speedText := "1.0" })],
        mediaElements := [1], domDivs := [0], playListeners := [(1, 0)],
        seekListeners := [(1, 0)], activeObservers := [0], resetBinding := 1,
        dispatchedEvents := [], assignedRates := [] })
    ∧ destroy 3
      { nextId := 0, attached := [], mediaElements := [], domDivs := [],
        playListeners := [], seekListeners := [], activeObservers := [],
        resetBinding := 1, dispatchedEvents := [], assignedRates := [] }
      = { nextId := 0, attached := [], mediaElements := [], domDivs := [],
          playListeners := [], seekListeners := [], activeObservers := [],
          resetBinding := 1, dispatchedEvents := [], assignedRates := [] } :=
  ⟨(c5_destroy_idempotent
      { nextId := 2, attached := [(1,
          { videoId := 1, divId := 0, divClasses := ["vsc-controller"],
            speedText := "1.0" })],
        mediaElements := [1], domDivs := [0], playListeners := [(1, 0)],
        seekListeners := [(1, 0)], activeObservers := [0], resetBinding := 1,
        dispatchedEvents := [], assignedRates := [] } 1 (by decide)).1,
   (c5_destroy_idempotent
      { nextId := 0, attached := [], mediaElements := [], domDivs := [],
        playListeners := [], seekListeners := [], activeObservers := [],
        resetBinding := 1, dispatchedEvents := [], assignedRates := [] } 3
      (by decide)).2 rfl⟩

/-- C8: on a well-formed tree (distinct node identities, traversable
descendants, no iframes) with a site handler contributing no specials, no
container selectors and no ignores, `scanAll` — the deduplicated union of
the document scan, the container scan and the iframe scan — returns
handles with no duplicates, exactly `N + M` of them where `N` counts the
eligible light-DOM media and `M` the eligible shadow-encapsulated media,
and re-running it on the unchanged tree (even after its first run has
registered shadow roots with the boundary tracker) yields the same
list. -/
theorem c8_scanAll_dedup_union (site : ScannerSite) (audio : Bool)
    (frames : Nat → FrameAccess) (doc : DNode) (st : List Nat)
    (hids : (allIdsN doc).Nodup)
    (hclean : cleanN doc = true)
    (hnoif : lightByNameN "IFRAME" doc = [])
    (hspec : site.specialVideos = [])
    (hcont : site.containerScans = [])
    (hign : ∀ i, site.ignoreId i = false) :
    ((scanAll site audio frames doc).map DNode.id).Nodup
    ∧ (scanAll site audio frames doc).length
        = (lightMediaN (mediaTags audio) doc).length
          + (shadowMediaN (mediaTags audio) doc).length
    ∧ (scanAllWithState site audio frames doc
        ((scanAllWithState site audio frames doc st).2)).1
        = (scanAllWithState site audio frames doc st).1 := by
  have hfilter : scanForMedia site audio doc
      = dedupById (lightMediaN (mediaTags audio) doc
          ++ traverseMediaN (mediaTags audio) doc) := by
    simp only [scanForMedia, hspec, List.append_nil]
    exact List.filter_eq_self.mpr (fun m _ => by simp [hign m.id])
  have hcont0 : scanSiteSpecificContainers site = [] := by
    simp [scanSiteSpecificContainers, hcont]
  have hif0 : scanIframes site audio frames doc = [] := by
    simp [scanIframes, hnoif]
  have hscan : scanAll site audio frames doc
      = dedupById (lightMediaN (mediaTags audio) doc
          ++ traverseMediaN (mediaTags audio) doc) := by
    rw [scanAll, hfilter, hcont0, hif0, List.append_nil, List.append_nil]
    exact dedupById_eq_self _ (dedupById_ids_nodup _)
  have hperm : List.Perm (allMediaN (mediaTags audio) doc)
      (lightMediaN (mediaTags audio) doc ++ shadowMediaN (mediaTags audio) doc) := by
    rw [← Multiset.coe_eq_coe, ← Multiset.coe_add]
    exact allMediaN_multiset _ _
  have htfs : ((traverseMediaN (mediaTags audio) doc).map DNode.id).toFinset
      = ((lightMediaN (mediaTags audio) doc).map DNode.id).toFinset
        ∪ ((shadowMediaN (mediaTags audio) doc).map DNode.id).toFinset := by
    rw [traverseMediaN_eq_allMediaN _ _ hclean]
    have hp := hperm.map DNode.id
    ext a
    simp only [List.mem_toFinset, hp.mem_iff, List.map_append,
      List.mem_append, Finset.mem_union]
  have hsub := light_shadow_subperm (mediaTags audio) doc
  have hnd2 : ((lightMediaN (mediaTags audio) doc).map DNode.id
      ++ (shadowMediaN (mediaTags audio) doc).map DNode.id).Nodup := by
    obtain ⟨l, hpm, hsl⟩ := hsub
    exact hpm.nodup_iff.mp (hids.sublist hsl)
  obtain ⟨hndL, hndS, hdisj⟩ := List.nodup_append.mp hnd2
  have hdisjF : Disjoint
      ((lightMediaN (mediaTags audio) doc).map DNode.id).toFinset
      ((shadowMediaN (mediaTags audio) doc).map DNode.id).toFinset := by
    rw [Finset.disjoint_left]
    intro a ha hb
    exact hdisj (List.mem_toFinset.mp ha) (List.mem_toFinset.mp hb)
  refine ⟨?_, ?_, rfl⟩
  · rw [hscan]
    exact dedupById_ids_nodup _
  · rw [hscan, dedupById_length, List.map_append, List.toFinset_append, htfs,
      ← Finset.union_assoc, Finset.union_idempotent,
      Finset.card_union_of_disjoint hdisjF,
      List.toFinset_card_of_nodup hndL, List.toFinset_card_of_nodup hndS,
      List.length_map, List.length_map]

/-- C8 witness: a concrete document with one light video and one video
inside a shadow boundary yields exactly two unique handles and is stable
under re-scanning. -/
theorem c8_scanAll_dedup_union_witness :
    ((scanAll
      { specialVideos := [], ignoreId := fun _ => false, containerScans := [] }
      false (fun _ => FrameAccess.noDocument)
      (DNode.mk 1 "#document"
        (DForest.cons (DNode.mk 2 "VIDEO" DForest.nil DForest.nil)
          (DForest.cons (DNode.mk 3 "DIV" DForest.nil
            (DForest.cons (DNode.mk 4 "VIDEO" DForest.nil DForest.nil)
              DForest.nil)) DForest.nil))
        DForest.nil)).map DNode.id).Nodup
    ∧ (scanAll
      { specialVideos := [], ignoreId := fun _ => false, containerScans := [] }
      false (fun _ => FrameAccess.noDocument)
      (DNode.mk 1 "#document"
        (DForest.cons (DNode.mk 2 "VIDEO" DForest.nil DForest.nil)
          (DForest.cons (DNode.mk 3 "DIV" DForest.nil
            (DForest.cons (DNode.mk 4 "VIDEO" DForest.nil DForest.nil)
              DForest.nil)) DForest.nil))
        DForest.nil)).length
      = (lightMediaN (mediaTags false)
          (DNode.mk 1 "#document"
            (DForest.cons (DNode.mk 2 "VIDEO" DForest.nil DForest.nil)
              (DForest.cons (DNode.mk 3 "DIV" DForest.nil
                (DForest.cons (DNode.mk 4 "VIDEO" DForest.nil DForest.nil)
                  DForest.nil)) DForest.nil))
            DForest.nil)).length
        + (shadowMediaN (mediaTags false)
          (DNode.mk 1 "#document"
            (DForest.cons (DNode.mk 2 "VIDEO" DForest.nil DForest.nil)
              (DForest.cons (DNode.mk 3 "DIV" DForest.nil
                (DForest.cons (DNode.mk 4 "VIDEO" DForest.nil DForest.nil)
                  DForest.nil)) DForest.nil))
            DForest.nil)).length :=
  ⟨(c8_scanAll_dedup_union
      { specialVideos := [], ignoreId := fun _ => false, containerScans := [] }
      false (fun _ => FrameAccess.noDocument)
      (DNode.mk 1 "#document"
        (DForest.cons (DNode.mk 2 "VIDEO" DForest.nil DForest.nil)
          (DForest.cons (DNode.mk 3 "DIV" DForest.nil
            (DForest.cons (DNode.mk 4 "VIDEO" DForest.nil DForest.nil)
              DForest.nil)) DForest.nil))
        DForest.nil) []
      (by decide) (by decide) rfl rfl rfl (fun i => rfl)).1,
   (c8_scanAll_dedup_union
      { specialVideos := [], ignoreId := fun _ => false, containerScans := [] }
      false (fun _ => FrameAccess.noDocument)
      (DNode.mk 1 "#document"
        (DForest.cons (DNode.mk 2 "VIDEO" DForest.nil DForest.nil)
          (DForest.cons (DNode.mk 3 "DIV" DForest.nil
            (DForest.cons (DNode.mk 4 "VIDEO" DForest.nil DForest.nil)
              DForest.nil)) DForest.nil))
        DForest.nil) []
      (by decide) (by decide) rfl rfl rfl (fun i => rfl)).2.1⟩

end VSC
